import Mathlib

/-!
A shallow embedding of the judge execution engine of the
devcapsules/codecapsules repository, together with theorems settling the
specification claims against it.  Each definition carries a pointer to the
source file and lines it embeds; values are translated from the Python
source, with the semantics of the relevant Python and CPython primitives
(string containment, `re` patterns, `exec` name resolution, `subprocess`
timeouts, database transactions) spelled out in the accompanying comments.
-/

set_option maxRecDepth 4000

/-! ## String utilities

Python `needle in hay` is substring containment.  We model strings as the
character lists underlying Lean strings.
-/

/-- True when the first list is an initial segment of the second. -/
def listPre {α : Type} [DecidableEq α] : List α → List α → Bool
  | [], _ => true
  | _ :: _, [] => false
  | a :: ns, b :: hs => a == b && listPre ns hs

/-- True when the first list occurs contiguously inside the second. -/
def listSub {α : Type} [DecidableEq α] (needle : List α) : List α → Bool
  | [] => needle.isEmpty
  | b :: hs => listPre needle (b :: hs) || listSub needle hs

/-- Python `needle in hay` on strings: substring containment. -/
def hasSubstr (hay needle : String) : Bool :=
  listSub needle.toList hay.toList

/-- Python `str.upper` on one character, ASCII fragment: lowercase ASCII
letters map to uppercase, everything else is unchanged.  All queries and
patterns concerned are ASCII. -/
def pyUpperChar (c : Char) : Char :=
  if 'a' ≤ c && c ≤ 'z' then Char.ofNat (c.toNat - 32) else c

/-- The characters removed by Python `str.strip`. -/
def isPySpace (c : Char) : Bool :=
  c == ' ' || c == '\t' || c == '\n' || c == '\r' || c == '\x0b' || c == '\x0c'

/-- Drop leading characters satisfying `p`. -/
def dropLeading (p : Char → Bool) : List Char → List Char
  | [] => []
  | c :: r => if p c then dropLeading p r else c :: r

/-- Python `str.strip`: remove whitespace from both ends. -/
def pyStrip (l : List Char) : List Char :=
  (dropLeading isPySpace (dropLeading isPySpace l).reverse).reverse

namespace SqlJudge

/-!
## The SQL deny-list screen

Embedding of `validate_sql_security` from
`src/packages/runtime/lambda-functions/sql-judge.py`, lines 167-218.

The Python source builds its patterns with raw f-strings carrying doubled
backslashes, for example `rf'\\bDROP\\b'`.  In a raw string the two
characters stay, so the pattern handed to `re` is the character sequence
backslash backslash b D R O P backslash backslash b.  Under `re` semantics
a doubled backslash is an escaped literal backslash, so this pattern
matches exactly the literal text backslash b DROP backslash b; it never
matches the plain word DROP.  Moreover the query is uppercased before the
search while the letter b in the pattern stays lowercase, so the pattern
cannot match any uppercased text at all.

The second loop builds `rf'\\bPG_SLEEP\\s*\\('`: after the escaped literal
backslash the final open parenthesis starts a group that is never closed,
so `re.search` raises `re.error` (missing parenthesis, unterminated
subpattern) the moment it compiles the first function pattern.  That
exception is not caught inside `validate_sql_security`, so for every query
that survives the first loop the function raises instead of returning.
We model a raised exception as `Except.error`.
-/

/-- A returned security check: the dict `{'valid': ..., 'reason': ...}`. -/
structure SecCheck where
  valid : Bool
  reason : Option String
  deriving DecidableEq, Repr

/-- The deny list of statement keywords, sql-judge.py lines 177-181. -/
def dangerous_statements : List String :=
  ["DROP", "CREATE", "ALTER", "INSERT", "UPDATE", "DELETE",
   "TRUNCATE", "GRANT", "REVOKE", "EXEC", "EXECUTE",
   "CALL", "DO", "LOAD", "COPY"]

/-- The literal text actually matched by the mis-escaped pattern built
from keyword `w`: a backslash, a lowercase b, the keyword, a backslash,
a lowercase b. -/
def literalPattern (w : String) : String :=
  "\\b" ++ w ++ "\\b"

/-- Embedding of `validate_sql_security` (sql-judge.py lines 167-218).
The first loop returns the security rejection only when the uppercased,
stripped query contains the literal mis-escaped pattern text; otherwise
control reaches the dangerous-function loop, whose first pattern fails to
compile, raising `re.error`.  The length and subquery checks at lines
203-216 are therefore unreachable. -/
def validate_sql_security (query : String) : Except String SecCheck :=
  let query_upper := pyStrip (query.toList.map pyUpperChar)
  match dangerous_statements.find? (fun w => listSub (literalPattern w).toList query_upper) with
  | some w => .ok ⟨false, some (w ++ " statements are not allowed in read-only mode")⟩
  | none => .error "re.error: missing ), unterminated subpattern"

end SqlJudge

namespace PyJudge

/-!
## The restricted interpreter path

Embedding of `create_restricted_globals` and the name surface of
`execute_python_code` from
`src/packages/runtime/lambda-functions/python-judge.py`, lines 92-207.
A namespace is modelled by the list of identifiers it binds.
-/

/-- The keys of the `safe_builtins` dict, python-judge.py lines 149-190,
in source order. -/
def safe_builtins : List String :=
  ["print", "len", "str", "int", "float", "bool", "list", "dict",
   "tuple", "set", "range", "enumerate", "zip", "map", "filter",
   "sum", "max", "min", "abs", "round", "sorted", "reversed",
   "any", "all", "isinstance", "type", "hasattr", "getattr",
   "setattr", "ord", "chr", "hex", "oct", "bin",
   "Exception", "ValueError", "TypeError", "KeyError", "IndexError"]

/-- The keys of the `safe_modules` dict, python-judge.py lines 199-205. -/
def safe_modules : List String :=
  ["math", "random", "string", "datetime", "json"]

/-- Embedding of `create_restricted_globals` (python-judge.py lines
144-207): the capability table handed to `exec` is the union of the safe
builtins and the allow-listed modules.  Note that no `__builtins__` key
is ever placed in this dict. -/
def create_restricted_globals : List String :=
  safe_builtins ++ safe_modules

/-- A representative, non-exhaustive list of names bound by the CPython
`builtins` module beyond the capability table, including the dangerous
ones: file access, dynamic evaluation and the import machinery. -/
def ambientBuiltinNames : List String :=
  ["open", "eval", "exec", "compile", "__import__", "input",
   "delattr", "vars", "globals", "locals", "object", "super",
   "memoryview", "breakpoint", "exit", "quit", "help"]

/-- Documented CPython semantics of `exec(code, globals_dict)`: if the
globals mapping has no `__builtins__` key, the interpreter inserts a
reference to the full `builtins` module under that key before the code
runs, and name lookup in the executed code falls through from the globals
to that module.  The names resolvable by the executed code are therefore
the globals keys plus, when `__builtins__` was absent, every builtin. -/
def execResolvableNames (g : List String) : List String :=
  if g.contains "__builtins__" then g else g ++ ambientBuiltinNames

/-- The namespace actually used by `execute_python_code` (python-judge.py
lines 104-122): the restricted table, plus `test_input` when test input
is supplied, as seen by the executed submission under `exec`. -/
def execute_python_code_names (testInput : Bool) : List String :=
  execResolvableNames
    (create_restricted_globals ++ if testInput then ["test_input"] else [])

/-!
## The python judge handler

Embedding of `lambda_handler` and `execute_python_code` from
`src/packages/runtime/lambda-functions/python-judge.py`.

The wall-clock ceiling is enforced by `signal.alarm(timeout_seconds)`
armed before the evaluation: when it expires during the `exec` call the
`SIGALRM` handler raises `TimeoutError` inside the evaluating frame.  The
possible dynamic outcomes of the `exec` call are captured by `ExecBeh`;
the raised-exception case covers Exception-derived raises, which is what
the inner `except Exception` at line 126 catches (the timeout interrupt
is such a raise, since `TimeoutError` derives from `Exception`). -/

/-- A parsed execution request: `code`, `testInput`, and the
client-supplied `timeout` (absent means the default 10). -/
structure Event where
  code : String
  testInput : Option String
  timeout : Option Int
  deriving DecidableEq, Repr

/-- Line 44/49: `timeout_seconds = min(body.get('timeout', 10), 30)`.
This is the full clamping applied to the client value. -/
def clamp_timeout (t : Option Int) : Int :=
  min (t.getD 10) 30

/-- The ceiling armed via `signal.alarm` for a request. -/
def timeout_seconds (e : Event) : Int :=
  clamp_timeout e.timeout

/-- Lines 51-56: input validation, returning the rejection message if
any.  It inspects only the code, never the ceilings. -/
def inputValidation (code : String) : Option String :=
  if (pyStrip code.toList).isEmpty then some "No code provided"
  else if code.length > 50000 then some "Code too large (max 50KB)"
  else none

/-- Dynamic outcome of the `exec(code, restricted_globals)` call:
it completes; it raises an Exception-derived exception carrying a name,
message and formatted traceback; or the wall-clock ceiling expires during
it, delivering `SIGALRM` whose handler raises `TimeoutError` inside the
frame.  In each case `out` and `err` are the stream contents captured up
to that point. -/
inductive ExecBeh
  | completes (out err : String)
  | raisesExc (excName excMsg tb : String) (out err : String)
  | ceilingExpires (tb : String) (out err : String)
  deriving DecidableEq, Repr

/-- The dict returned by `execute_python_code`. -/
structure ExecResult where
  success : Bool
  stdout : String
  stderr : String
  deriving DecidableEq, Repr

/-- Embedding of `execute_python_code` (python-judge.py lines 92-141).
On any Exception-derived raise, including the timeout interrupt, the
handler at lines 126-130 appends the exception text to stderr: note the
source writes `f"...\\n"`, a literal backslash followed by n, not a
newline, and then the traceback text. -/
def execute_python_code (b : ExecBeh) : ExecResult :=
  match b with
  | .completes out err => ⟨true, out, err⟩
  | .raisesExc excName excMsg tb out err =>
      ⟨false, out, err ++ excName ++ ": " ++ excMsg ++ "\\n" ++ tb⟩
  | .ceilingExpires tb out err =>
      ⟨false, out, err ++ "TimeoutError: Code execution timed out" ++ "\\n" ++ tb⟩

/-- The serialized handler response body together with the HTTP status
code.  `executionTime` is wall time and is not modelled. -/
structure Response where
  statusCode : Int
  success : Bool
  stdout : String
  stderr : String
  memoryUsed : Int
  exitCode : Int
  error : Option String
  deriving DecidableEq, Repr

/-- `create_error_response` (python-judge.py lines 218-231). -/
def create_error_response (message : String) (status : Int) : Response :=
  ⟨status, false, "", message, 0, 1, some message⟩

/-- The dedicated timed-out error response of line 86:
`create_error_response("Execution timed out", 408)`.  It is produced only
when `TimeoutError` escapes the inner evaluation, which cannot happen for
a raise inside `exec` because the inner `except Exception` catches it. -/
def timed_out_response : Response :=
  create_error_response "Execution timed out" 408

/-- Embedding of `lambda_handler` (python-judge.py lines 24-89): parse,
validate, arm the alarm with `timeout_seconds`, evaluate, and build the
200 response whose body always carries `success: True`, with
`exitCode` 0 or 1 according to the inner success flag and
`memoryUsed` the fixed estimate 32. -/
def lambda_handler (e : Event) (b : ExecBeh) : Response :=
  match inputValidation e.code with
  | some m => create_error_response m 400
  | none =>
      let r := execute_python_code b
      ⟨200, true, r.stdout, r.stderr, 32, if r.success then 0 else 1, none⟩

end PyJudge

namespace JavaJudge

/-!
## The java judge

Embedding of `src/packages/runtime/lambda-functions/java-judge.py`.
The entrypoint extraction (`extract_main_class`, lines 66-85) is taken as
a boolean parameter of the pipeline; the claims below concern the
compile and execute phases only.

The module imports `time` only inside the `if __name__ == '__main__':`
block at line 219.  When the module is imported by the Lambda runtime,
that block never runs and the module-global name `time` stays unbound,
so every reference to `time.time()` — the first statement of
`execute_java` at line 135, placed before its `try`, and the
`'timestamp': int(time.time())` entry of `create_response` at line 204 —
raises `NameError`.  The functions below therefore take a `timeBound`
flag: `true` models the script (`__main__`) context in which `time` is
bound, `false` models the deployed module.  A raised `NameError` is an
`Except.error`. -/

/-- The text of the exception raised by referencing the unbound `time`
module in the deployed java judge. -/
def nameErrorTime : String := "NameError: name 'time' is not defined"

/-- A parsed java judge request. -/
structure JEvent where
  source_code : String
  input : String
  time_limit : Option Int
  memory_limit : Option Int
  deriving DecidableEq, Repr

/-- Line 22: `time_limit = min(body.get('time_limit', 10), 30)`. -/
def time_limit_used (t : Option Int) : Int :=
  min (t.getD 10) 30

/-- Line 23: `memory_limit = min(body.get('memory_limit', 128), 512)`. -/
def memory_limit_used (m : Option Int) : Int :=
  min (m.getD 128) 512

/-- Outcome of the `javac` subprocess (lines 98-105): it ran and exited
with a code and captured streams, its own timeout expired, or launching
it raised. -/
inductive CompileRun
  | ran (returncode : Int) (stdout stderr : String)
  | expired
  | raised (msg : String)
  deriving DecidableEq, Repr

/-- The dict returned by `compile_java`. -/
structure CompileOut where
  success : Bool
  output : String
  error : Option String
  deriving DecidableEq, Repr

/-- Embedding of `compile_java` (java-judge.py lines 87-131): on a
non-zero exit the diagnostics are the combined stdout and stderr of the
toolchain. -/
def compile_java (time_limit : Int) (c : CompileRun) : CompileOut :=
  match c with
  | .ran rc out err =>
      if rc == 0 then ⟨true, out, none⟩
      else ⟨false, out ++ err, some "Compilation failed"⟩
  | .expired => ⟨false, "", some ("Compilation timeout (" ++ toString time_limit ++ "s)")⟩
  | .raised m => ⟨false, "", some ("Compilation error: " ++ m)⟩

/-- Outcome of the `java` subprocess (lines 152-160): it completed with
an exit code and captured streams; the wall-clock ceiling expired, in
which case `capturedOut`/`capturedErr` are whatever the child had written
before `subprocess.run` killed it; or launching it raised. -/
inductive JRun
  | completed (returncode : Int) (stdout stderr : String)
  | ceilingExpired (capturedOut capturedErr : String)
  | raised (msg : String)
  deriving DecidableEq, Repr

/-- The dict returned by `execute_java` (`time` is wall time, not
modelled). -/
structure JExec where
  stdout : String
  stderr : String
  exit_code : Int
  memory : Int
  deriving DecidableEq, Repr

/-- Embedding of `execute_java` (java-judge.py lines 133-189).  Its
first statement, `start_time = time.time()` at line 135, sits before the
`try`, so in the deployed module (where `time` is unbound) the call
raises `NameError` before any subprocess is spawned and none of the
branches below is reachable.  With `time` bound (script context), on
ceiling expiry (`subprocess.TimeoutExpired`, lines 172-180) the result
discards the captured streams: stdout is the empty string, stderr is the
fixed time-limit message, and the exit code is the conventional 124. -/
def execute_java (timeBound : Bool) (time_limit : Int) (r : JRun) :
    Except String JExec :=
  if !timeBound then .error nameErrorTime
  else
    match r with
    | .completed rc out err => .ok ⟨out, err, rc, 64⟩
    | .ceilingExpired _ _ =>
        .ok ⟨"", "Time limit exceeded (" ++ toString time_limit ++ "s)", 124, 0⟩
    | .raised m => .ok ⟨"", "Runtime error: " ++ m, 1, 0⟩

/-- The response shapes the handler builds through `create_response`:
input rejection, compile failure carrying the diagnostics, a completed
execution carrying the run outcome, or the catch-all. -/
inductive JResponse
  | rejected (message : String)
  | compileFailure (message : String) (compile_output : String)
  | executed (stdout stderr : String) (exit_code : Int) (memory : Int)
  | internalError (message : String)
  deriving DecidableEq, Repr

/-- Embedding of `create_response` (java-judge.py lines 200-215): the
body dict includes `'timestamp': int(time.time())` at line 204, so in
the deployed module every call raises `NameError` instead of returning;
with `time` bound it returns the given shape (the timestamp itself is
wall-clock and not modelled). -/
def create_response (timeBound : Bool) (shape : JResponse) :
    Except String JResponse :=
  if !timeBound then .error nameErrorTime else .ok shape

/-- The body of the `try` block of `lambda_handler` (java-judge.py lines
16-60): validation, entrypoint extraction (as the `mainClassFound`
parameter), compile phase, and only when the compile phase succeeded,
the execute phase.  On compile failure the body returns at line 47 and
`execute_java` is never invoked.  An `Except.error` is an exception
raised inside the `try`. -/
def java_handler_body (timeBound : Bool) (e : JEvent) (mainClassFound : Bool)
    (c : CompileRun) (r : JRun) : Except String JResponse :=
  if (pyStrip e.source_code.toList).isEmpty then
    create_response timeBound (.rejected "No source code provided")
  else if !mainClassFound then
    create_response timeBound (.rejected "No public class with main method found")
  else
    let tl := time_limit_used e.time_limit
    let co := compile_java tl c
    if !co.success then
      create_response timeBound (.compileFailure (co.error.getD "") co.output)
    else
      match execute_java timeBound tl r with
      | .error msg => .error msg
      | .ok ex => create_response timeBound (.executed ex.stdout ex.stderr ex.exit_code ex.memory)

/-- Embedding of `lambda_handler` (java-judge.py lines 9-64): the `try`
body, with any exception raised inside it caught at line 62 and answered
through `create_response(500, ...)` — which, in the deployed module,
itself raises `NameError` again, so the second exception escapes the
handler entirely (an unhandled Lambda error, the final `.error`). -/
def java_lambda_handler (timeBound : Bool) (e : JEvent) (mainClassFound : Bool)
    (c : CompileRun) (r : JRun) : Except String JResponse :=
  match java_handler_body timeBound e mainClassFound c r with
  | .ok resp => .ok resp
  | .error msg =>
      create_response timeBound (.internalError ("Internal server error: " ++ msg))

end JavaJudge

/-! ## The C# and Go container runners

Embedding of `src/terraform/containers/csharp/lambda_function.py` and
`src/terraform/containers/go/lambda_function.py`.  The two files are
near-identical: `indent_code` and `execute_with_timeout` are duplicated
verbatim (only the spawned command differs), so they are embedded once.
-/

/-- Split on the newline character, Python `code.split('\n')`: note that
a trailing newline yields a trailing empty piece and the result is never
empty. -/
def splitNl : List Char → List (List Char)
  | [] => [[]]
  | c :: r =>
      if c == '\n' then [] :: splitNl r
      else
        match splitNl r with
        | [] => [[c]]
        | l :: ls => (c :: l) :: ls

/-- Python `'\n'.join(pieces)`. -/
def joinNl : List (List Char) → List Char
  | [] => []
  | [l] => l
  | l :: ls => l ++ '\n' :: joinNl ls

/-- Embedding of `indent_code` (csharp lambda_function.py lines 128-132,
go lambda_function.py lines 120-124): prefix each line that is non-blank
after stripping with the given number of spaces. -/
def indent_code (code : String) (spaces : Nat) : String :=
  ⟨joinNl ((splitNl code.toList).map
      (fun l => if (pyStrip l).isEmpty then l else List.replicate spaces ' ' ++ l))⟩

namespace CSharpRunner

/-- Line 27: `timeout_seconds = min(int(body.get('timeout', 25)), 25)`. -/
def clamp_timeout (t : Option Int) : Int :=
  min (t.getD 25) 25

/-- The synthetic wrapper text before the embedded statements, from the
f-string at csharp lambda_function.py lines 80-89. -/
def csharp_wrapper_pre : String :=
  "using System;\nusing System.Threading.Tasks;\n\nclass Program \n\x7b\n    static void Main(string[] args)\n    \x7b\n"

/-- The synthetic wrapper text after the embedded statements. -/
def csharp_wrapper_post : String :=
  "\n    \x7d\n\x7d"

/-- Embedding of the entrypoint wrapping at csharp lambda_function.py
lines 78-91: wrap only when the source contains neither Main marker. -/
def prepare_csharp (code : String) : String :=
  if !(hasSubstr code "static void Main") && !(hasSubstr code "static async Task Main") then
    csharp_wrapper_pre ++ indent_code code 8 ++ csharp_wrapper_post
  else code

/-- The result dict built by `execute_with_timeout`, initialized at line
138 to `{'success': False, 'stdout': '', 'stderr': '', 'timeout': False}`. -/
structure RunResult where
  success : Bool
  stdout : String
  stderr : String
  timeout : Bool
  deriving DecidableEq, Repr

/-- What the invocation leaves behind when `execute_with_timeout`
returns, derived from the documented semantics of the primitives it
uses.  `groupSignalSent`: whether any termination signal was sent to the
whole process group — the source contains no `os.killpg`, no
`start_new_session`, and no handle-based group kill, so this is false on
every path; the only kill is the one `subprocess.run` applies to the
direct child on its own `TimeoutExpired`.  `childConfirmedExited`:
whether the child is known to have exited before the function returns.
`survivorsRemain`: whether some process spawned during the call is still
alive when the function returns. -/
structure Residue where
  groupSignalSent : Bool
  childConfirmedExited : Bool
  survivorsRemain : Bool
  deriving DecidableEq, Repr

/-- Dynamic behavior of the spawned program under
`execute_with_timeout`.  `finishes`: the child exits within the ceiling.
`hangsAlone`: it exceeds the ceiling with no other processes; the inner
`subprocess.run(timeout=...)` raises `TimeoutExpired` after killing and
reaping the direct child, and the worker thread completes.
`hangsWithHelpers`: it exceeds the ceiling after spawning helper
processes that inherit the output pipes; the inner kill targets only the
direct child, the captured-output read never completes because the
helpers keep the pipes open, so the worker thread is still alive when
the outer `thread.join(timeout_seconds + 1)` gives up; the daemon thread
and the helper processes are abandoned. -/
inductive ChildRun
  | finishes (returncode : Int) (out err : String)
  | hangsAlone
  | hangsWithHelpers
  deriving DecidableEq, Repr

/-- Embedding of `execute_with_timeout` (csharp lambda_function.py lines
134-174, go lambda_function.py lines 126-165): run the child in a daemon
thread, join with the ceiling plus one second, and if the thread is still
alive merely record a timeout message and return.  No path sends a
process-group signal; on the `hangsWithHelpers` path the function
returns while spawned processes are still alive. -/
def execute_with_timeout (timeout_seconds : Int) (b : ChildRun) : RunResult × Residue :=
  let msg := "Execution timeout (" ++ toString timeout_seconds ++ " seconds exceeded)"
  match b with
  | .finishes rc out err => (⟨rc == 0, out, err, false⟩, ⟨false, true, false⟩)
  | .hangsAlone => (⟨false, "", msg, true⟩, ⟨false, true, false⟩)
  | .hangsWithHelpers => (⟨false, "", msg, true⟩, ⟨false, false, true⟩)

/-- Outcome of the `dotnet build` subprocess (lines 97-103). -/
inductive CompileRun
  | ran (returncode : Int) (stdout stderr : String)
  | expired
  | raised (msg : String)
  deriving DecidableEq, Repr

/-- Embedding of `execute_csharp_code` (csharp lambda_function.py lines
45-126) from the compile step on: on a non-zero build exit the function
returns at lines 105-110 with stderr `"Compilation error:\n"` followed by
only the stderr of the toolchain, and the run phase is never entered —
the second component is `none` exactly when `execute_with_timeout` was
never called, so no run-phase residue exists. -/
def execute_csharp_code (c : CompileRun) (b : ChildRun) (timeout_seconds : Int) :
    RunResult × Option Residue :=
  match c with
  | .expired => (⟨false, "", "Compilation timeout (15 seconds exceeded)", false⟩, none)
  | .raised m => (⟨false, "", "Execution error: " ++ m, false⟩, none)
  | .ran rc _ err =>
      if rc != 0 then (⟨false, "", "Compilation error:\n" ++ err, false⟩, none)
      else
        let (r, res) := execute_with_timeout timeout_seconds b
        (r, some res)

end CSharpRunner

namespace GoRunner

/-- Line 27 of the go runner is identical to the csharp one. -/
def clamp_timeout (t : Option Int) : Int :=
  min (t.getD 25) 25

/-- The synthetic wrapper text before the embedded statements, from the
f-string at go lambda_function.py lines 66-77. -/
def go_wrapper_pre : String :=
  "package main\n\nimport (\n    \"fmt\"\n    \"bufio\"\n    \"os\"\n    \"strings\"\n)\n\nfunc main() \x7b\n"

/-- The synthetic wrapper text after the embedded statements. -/
def go_wrapper_post : String :=
  "\n\x7d"

/-- Embedding of the entrypoint wrapping at go lambda_function.py lines
64-83: wrap when there is no main function; otherwise prepend only the
package clause when missing, and pass a complete source through
unchanged. -/
def prepare_go (code : String) : String :=
  if !(hasSubstr code "func main()") then
    go_wrapper_pre ++ indent_code code 4 ++ go_wrapper_post
  else if !(hasSubstr code "package main") then
    "package main\n\n" ++ code
  else code

/-- `execute_with_timeout` of the go runner (lines 126-165) is
character-identical to the csharp one apart from the spawned command. -/
def execute_with_timeout (timeout_seconds : Int) (b : CSharpRunner.ChildRun) :
    CSharpRunner.RunResult × CSharpRunner.Residue :=
  CSharpRunner.execute_with_timeout timeout_seconds b

end GoRunner

namespace SqlValidator

/-!
## The SQL capsule validator

Embedding of
`src/terraform/lambda-functions/sql-fixed/sql-capsule-validator.py`.

A result row is the dict produced by `dict(row)`: an association list
from column name to value in projection order, with distinct keys.  The
SQL engines themselves are parameters: an engine maps a database state
and a statement either to an error (a raised `sqlite3.Error` or
`psycopg2.Error`) or to a successor state together with the statement
result set — `none` when the statement returns no result set, the case
in which `cursor.description` is `None`.
-/

/-- A row as produced by `dict(row)`. -/
abbrev Row (V : Type) := List (String × V)

/-- A statement result set: the fetched rows and the column-name order
taken from `cursor.description`. -/
structure QRes (V : Type) where
  rows : List (Row V)
  cols : List String
  deriving DecidableEq, Repr

/-- Insert a pair into a key-sorted row, keeping ascending key order. -/
def insertByKey {V : Type} (p : String × V) : Row V → Row V
  | [] => [p]
  | q :: rest => if p.1 < q.1 then p :: q :: rest else q :: insertByKey p rest

/-- Python `tuple(sorted(row.items()))`: the canonical form of a row,
sorted by key.  Dict keys are distinct, so sorting by key alone is the
order `sorted` produces on the pairs. -/
def canonRow {V : Type} : Row V → Row V
  | [] => []
  | p :: rest => insertByKey p (canonRow rest)

/-- Python set equality of the two constructed sets: every element of
one list is an element of the other.  Building a `set` in Python
deduplicates, so multiplicities are not compared. -/
def pySetEq {α : Type} [DecidableEq α] (a b : List α) : Bool :=
  a.all (fun x => decide (x ∈ b)) && b.all (fun x => decide (x ∈ a))

/-- Embedding of the comparison at sql-capsule-validator.py lines
129-137 (and identically lines 214-221): `is_correct` is set equality of
the canonicalized rows, then demoted to false when the column-name
sequences differ. -/
def is_correct_final {V : Type} [DecidableEq V]
    (user expected : List (Row V)) (userCols expectedCols : List String) : Bool :=
  let ic := pySetEq (user.map canonRow) (expected.map canonRow)
  if ic && (userCols != expectedCols) then false else ic

/-- The response dict assembled by a validation run.  Fields that a
branch does not set are `none`. -/
structure VOutcome (V : Type) where
  success : Bool
  user_result : Option (List (Row V))
  expected_result : Option (List (Row V))
  columns : Option (List String)
  error : Option String
  deriving DecidableEq, Repr

/-- Run the `schema_setup` statements in order on a plain state,
skipping blank statements (lines 111-113), stopping at the first raised
engine error. -/
def runStmts {V D : Type} (engine : D → String → Except String (D × Option (QRes V))) :
    D → List String → D × Option String
  | d, [] => (d, none)
  | d, s :: rest =>
      if (pyStrip s.toList).isEmpty then runStmts engine d rest
      else
        match engine d s with
        | .error e => (d, some e)
        | .ok (d2, _) => runStmts engine d2 rest

/-- Embedding of `validate_with_sqlite` (sql-capsule-validator.py lines
99-169) over an abstract sqlite engine started on the fresh in-memory
state `d0`.  A raised engine error during schema or reference is caught
by the outer handler (line 162); one during the user query by the inner
handler (line 146).  When a statement returns no result set the
comprehension over `cursor.description`, which is `None`, raises
`TypeError`; no handler in the function catches `TypeError`, so the call
raises — modelled as `Except.error`. -/
def validate_with_sqlite {V D : Type} [DecidableEq V]
    (engine : D → String → Except String (D × Option (QRes V)))
    (d0 : D) (schema : List String) (ref : String) (userQ : Option String) :
    Except String (VOutcome V) :=
  match runStmts engine d0 schema with
  | (_, some e) => .ok ⟨false, none, none, none, some ("SQLite Error: " ++ e)⟩
  | (d1, none) =>
    match engine d1 ref with
    | .error e => .ok ⟨false, none, none, none, some ("SQLite Error: " ++ e)⟩
    | .ok (_, none) => .error "TypeError: argument of type NoneType is not iterable"
    | .ok (d2, some eqr) =>
      match userQ with
      | none => .ok ⟨true, none, some eqr.rows, some eqr.cols, none⟩
      | some q =>
        match engine d2 q with
        | .error e =>
            .ok ⟨false, none, some eqr.rows, some eqr.cols, some ("SQL Error: " ++ e)⟩
        | .ok (_, none) => .error "TypeError: argument of type NoneType is not iterable"
        | .ok (_, some uqr) =>
            let ic := is_correct_final uqr.rows eqr.rows uqr.cols eqr.cols
            .ok ⟨ic, some uqr.rows, some eqr.rows, some uqr.cols,
                 if ic then none else some "Results do not match expected output"⟩

/-!
### The TransactionalRollback backend

`validate_with_postgres` (lines 172-257) executes everything on one
psycopg2 connection with autocommit off, so every statement acts on the
transaction-local workspace.  `COMMIT` is the only operation that would
publish the workspace to the persistent state, and the source never
issues it: the normal and user-error paths issue the explicit
`ROLLBACK` at line 246, and the error paths leave the transaction open,
whereupon `conn.close()` in the `finally` block (lines 255-257) closes
the session and the server discards the uncommitted transaction.
-/

end SqlValidator

/-! ## Helper lemmas and concrete fixtures -/

/-- Python set equality holds exactly when the two lists have the same
elements, multiplicities disregarded. -/
lemma pySetEq_eq_true_iff {α : Type} [DecidableEq α] (a b : List α) :
    SqlValidator.pySetEq a b = true ↔ ∀ x, x ∈ a ↔ x ∈ b := by
  simp only [SqlValidator.pySetEq, Bool.and_eq_true, List.all_eq_true, decide_eq_true_eq]
  constructor
  · rintro ⟨h1, h2⟩ x
    exact ⟨fun hx => h1 x hx, fun hx => h2 x hx⟩
  · intro h
    exact ⟨fun x hx => (h x).1 hx, fun x hx => (h x).2 hx⟩

/-- In the deployed java judge every path of the try body raises
`NameError`: each `create_response` call evaluates `time.time()` with
`time` unbound, and `execute_java` raises at its first statement. -/
lemma java_handler_body_deployed (e : JavaJudge.JEvent) (mcf : Bool)
    (c : JavaJudge.CompileRun) (r : JavaJudge.JRun) :
    JavaJudge.java_handler_body false e mcf c r = .error JavaJudge.nameErrorTime := by
  unfold JavaJudge.java_handler_body
  split
  · rfl
  · split
    · rfl
    · dsimp only
      split
      · rfl
      · rfl

/-- A concrete sqlite engine on the unit state: the reference query
returns one row, the user query returns the same row twice, both with
the single column a. -/
def engC4 : Unit → String → Except String (Unit × Option (SqlValidator.QRes Int)) :=
  fun _ s =>
    if s == "REF" then .ok ((), some ⟨[[("a", 1)]], ["a"]⟩)
    else if s == "USR" then .ok ((), some ⟨[[("a", 1)], [("a", 1)]], ["a"]⟩)
    else .ok ((), none)

/-- C1.  The claim states that after a judge invocation returns no
spawned process remains alive: on ceiling expiry the runner signals the
entire process group and confirms the exit before returning.  The code
violates this on the forced-timeout path: `execute_with_timeout` joins a
daemon worker thread with a grace second and, when the thread is still
alive, returns with only a timeout message — no process-group signal
exists anywhere in either runner, the child is not confirmed exited, and
with pipe-holding helper processes the spawned processes outlive the
invocation. -/
theorem C1_timeout_leaves_survivors :
    (CSharpRunner.execute_with_timeout 25 .hangsWithHelpers).2.survivorsRemain = true ∧
    (CSharpRunner.execute_with_timeout 25 .hangsWithHelpers).2.groupSignalSent = false ∧
    (CSharpRunner.execute_with_timeout 25 .hangsWithHelpers).2.childConfirmedExited = false ∧
    (CSharpRunner.execute_with_timeout 25 .hangsWithHelpers).1.timeout = true ∧
    (GoRunner.execute_with_timeout 25 .hangsWithHelpers).2.survivorsRemain = true ∧
    (∀ ts : Int, ∀ b : CSharpRunner.ChildRun,
      (CSharpRunner.execute_with_timeout ts b).2.groupSignalSent = false) := by
  refine ⟨rfl, rfl, rfl, rfl, rfl, ?_⟩
  intro ts b
  cases b <;> rfl

/-- C2.  The claim states that a candidate query containing a mutating
statement such as DROP is rejected by the deny-list screen with a
security-rejection error before reaching a database engine.  The code
contradicts its own deny list: the mis-escaped patterns only match
literal backslash-b text, so the DROP branch never fires, and the
dangerous-function patterns do not even compile, so `validate_sql_security`
raises `re.error` instead of returning the security rejection; the caller
surfaces a generic failure, not the security-violation response.  The
sibling sqlite validator runs no screen at all. -/
theorem C2_denylist_inert :
    SqlJudge.validate_sql_security "DROP TABLE users" =
      .error "re.error: missing ), unterminated subpattern" ∧
    (SqlJudge.validate_sql_security "DROP TABLE users" ≠
      .ok ⟨false, some "DROP statements are not allowed in read-only mode"⟩) := by
  constructor
  · rfl
  · intro h
    exact Except.noConfusion h

/-- C3.  The claim states that the restricted evaluation resolves names
only against the fixed capability table, so any identifier outside the
table is unavailable to the submitted code.  Because the globals dict
built by `create_restricted_globals` carries no `__builtins__` key,
CPython injects the entire `builtins` module into it when `exec` runs, so
identifiers far outside the table, among them `open`, `eval` and
`__import__`, all resolve for the submitted code. -/
theorem C3_builtins_injected :
    "open" ∈ PyJudge.execute_python_code_names false ∧
    "eval" ∈ PyJudge.execute_python_code_names false ∧
    "__import__" ∈ PyJudge.execute_python_code_names true ∧
    "open" ∉ PyJudge.create_restricted_globals ∧
    "eval" ∉ PyJudge.create_restricted_globals ∧
    "__import__" ∉ PyJudge.create_restricted_globals := by
  refine ⟨?_, ?_, ?_, ?_, ?_, ?_⟩ <;> decide

/-- C4, counterexample.  The claim requires duplicate rows to count with
multiplicity.  On a capsule whose reference returns one row and whose
user query returns that same row twice, the validator reports success:
the comparison builds Python sets, which deduplicate, while the two row
lists are not equal as multisets. -/
theorem C4_duplicate_rows_counterexample :
    SqlValidator.validate_with_sqlite engC4 () [] "REF" (some "USR") =
      .ok ⟨true, some [[("a", (1 : Int))], [("a", 1)]], some [[("a", 1)]], some ["a"], none⟩ ∧
    Multiset.ofList ([[("a", (1 : Int))], [("a", 1)]].map SqlValidator.canonRow) ≠
      Multiset.ofList ([[("a", (1 : Int))]].map SqlValidator.canonRow) := by
  refine ⟨rfl, ?_⟩
  decide

/-- C4, amended.  For an error-free user query, validation succeeds if
and only if the canonicalized user rows and reference rows have the same
elements — duplicates disregarded, row order irrelevant, each row
compared as a key-sorted mapping — and the column-name sequences are
exactly equal in order. -/
theorem C4_setwise_comparison {V : Type} [DecidableEq V]
    (user expected : List (SqlValidator.Row V)) (uc ec : List String) :
    SqlValidator.is_correct_final user expected uc ec = true ↔
      ((∀ r : SqlValidator.Row V,
          r ∈ user.map SqlValidator.canonRow ↔ r ∈ expected.map SqlValidator.canonRow) ∧
        uc = ec) := by
  unfold SqlValidator.is_correct_final
  by_cases hc : uc = ec
  · subst hc
    simp [pySetEq_eq_true_iff]
  · have hbne : (uc != ec) = true := bne_iff_ne.mpr hc
    simp only [hbne, Bool.and_true]
    by_cases hic : SqlValidator.pySetEq (user.map SqlValidator.canonRow)
        (expected.map SqlValidator.canonRow) = true
    · simp [hic, hc]
    · simp only [Bool.not_eq_true] at hic
      simp [hic, hc]

/-- C6, counterexample.  The claim requires clamping into [1,30] seconds
and [1,512] MB: values below the floor raised to it.  The judges apply
only the upper cap: a client timeout of 0 is used as 0 (which disables
the alarm entirely), a negative value passes through, a memory value of
0 stays 0, and the container runners cap time at 25, not 30. -/
theorem C6_clamp_counterexample :
    PyJudge.clamp_timeout (some 0) = 0 ∧
    PyJudge.clamp_timeout (some 0) ≠ 1 ∧
    PyJudge.clamp_timeout (some (-7)) = -7 ∧
    JavaJudge.time_limit_used (some 0) = 0 ∧
    JavaJudge.memory_limit_used (some 0) = 0 ∧
    CSharpRunner.clamp_timeout (some 30) = 25 ∧
    CSharpRunner.clamp_timeout (some 30) ≠ 30 := by
  refine ⟨rfl, by decide, rfl, rfl, rfl, rfl, by decide⟩

/-- C6, amended.  The ceilings are capped above only — at 30 seconds and
512 MB in the judges and at 25 seconds in the container runners — any
client value at or below the cap, including values below 1, is used
as-is, and a request is never rejected for an out-of-range ceiling: with
valid code the handler answers 200 whatever the timeout field holds. -/
theorem C6_ceilings_upper_capped :
    (∀ t : Int, PyJudge.clamp_timeout (some t) ≤ 30 ∧
        (t ≤ 30 → PyJudge.clamp_timeout (some t) = t)) ∧
    (∀ t : Int, JavaJudge.time_limit_used (some t) ≤ 30 ∧
        (t ≤ 30 → JavaJudge.time_limit_used (some t) = t)) ∧
    (∀ m : Int, JavaJudge.memory_limit_used (some m) ≤ 512 ∧
        (m ≤ 512 → JavaJudge.memory_limit_used (some m) = m)) ∧
    (∀ t : Int, CSharpRunner.clamp_timeout (some t) ≤ 25 ∧
        (t ≤ 25 → CSharpRunner.clamp_timeout (some t) = t)) ∧
    (∀ (e : PyJudge.Event) (b : PyJudge.ExecBeh),
        PyJudge.inputValidation e.code = none →
        (PyJudge.lambda_handler e b).statusCode = 200) := by
  refine ⟨?_, ?_, ?_, ?_, ?_⟩
  · intro t
    exact ⟨min_le_right t 30, fun h => min_eq_left h⟩
  · intro t
    exact ⟨min_le_right t 30, fun h => min_eq_left h⟩
  · intro m
    exact ⟨min_le_right m 512, fun h => min_eq_left h⟩
  · intro t
    exact ⟨min_le_right t 25, fun h => min_eq_left h⟩
  · intro e b h
    unfold PyJudge.lambda_handler
    rw [h]

/-- C6, witness for the amended theorem at concrete inputs. -/
theorem C6_ceilings_upper_capped_witness :
    PyJudge.clamp_timeout (some 0) = 0 ∧
    JavaJudge.memory_limit_used (some 3) = 3 ∧
    CSharpRunner.clamp_timeout (some 7) = 7 ∧
    PyJudge.inputValidation "print(1)" = none ∧
    (PyJudge.lambda_handler ⟨"print(1)", none, some 9999⟩
        (.completes "1" "")).statusCode = 200 :=
  ⟨(C6_ceilings_upper_capped.1 0).2 (by decide),
   (C6_ceilings_upper_capped.2.2.1 3).2 (by decide),
   (C6_ceilings_upper_capped.2.2.2.1 7).2 (by decide),
   by decide,
   C6_ceilings_upper_capped.2.2.2.2 ⟨"print(1)", none, some 9999⟩
     (.completes "1" "") (by decide)⟩

/-- C7, counterexample.  The claim requires every expired ceiling to
report exit code 124 with the captured output preserved.  In the python
judge the interrupt is caught inside the evaluation and reported as an
ordinary failure with exit code 1; in the deployed java judge
`execute_java` raises `NameError` at its first statement (`time` is
imported only under `__main__`), so no timeout outcome — 124 or
otherwise — is ever reported. -/
theorem C7_exit_code_counterexample :
    (PyJudge.lambda_handler ⟨"while True: pass", none, some 2⟩
        (.ceilingExpires "tb" "captured" "")).exitCode = 1 ∧
    (PyJudge.lambda_handler ⟨"while True: pass", none, some 2⟩
        (.ceilingExpires "tb" "captured" "")).exitCode ≠ 124 ∧
    JavaJudge.execute_java false 2 (.ceilingExpired "captured" "") =
      .error JavaJudge.nameErrorTime := by
  refine ⟨rfl, by decide, rfl⟩

/-- C7, amended.  On ceiling expiry no deployed judge reports exit code
124: the python judge reports the expiry as an ordinary failed
evaluation, exit code 1 inside a 200 response, with the captured stdout
preserved; the deployed java judge reports no timeout outcome at all —
`execute_java` raises `NameError` before spawning, for every run
behavior — and its in-source `TimeoutExpired` branch carrying exit code
124, the fixed time-limit message and a discarded stdout is reachable
only in the script context where `time` is bound. -/
theorem C7_timeout_reporting (tl : Int) (co ce tb out err : String)
    (r : JavaJudge.JRun) (e : PyJudge.Event)
    (h : PyJudge.inputValidation e.code = none) :
    JavaJudge.execute_java false tl r = .error JavaJudge.nameErrorTime ∧
    JavaJudge.execute_java true tl (.ceilingExpired co ce) =
      .ok ⟨"", "Time limit exceeded (" ++ toString tl ++ "s)", 124, 0⟩ ∧
    (PyJudge.lambda_handler e (.ceilingExpires tb out err)).exitCode = 1 ∧
    (PyJudge.lambda_handler e (.ceilingExpires tb out err)).stdout = out ∧
    (PyJudge.lambda_handler e (.ceilingExpires tb out err)).statusCode = 200 := by
  refine ⟨rfl, rfl, ?_, ?_, ?_⟩ <;>
    simp [PyJudge.lambda_handler, h, PyJudge.execute_python_code]

/-- C7, witness for the amended theorem at concrete inputs. -/
theorem C7_timeout_reporting_witness :
    PyJudge.inputValidation "while True: pass" = none ∧
    JavaJudge.execute_java false 2 (.ceilingExpired "o" "e") =
      .error JavaJudge.nameErrorTime ∧
    (PyJudge.lambda_handler ⟨"while True: pass", none, some 2⟩
        (.ceilingExpires "tb" "o2" "")).exitCode = 1 :=
  ⟨by decide,
   (C7_timeout_reporting 2 "o" "e" "tb" "o2" "" (.ceilingExpired "o" "e")
      ⟨"while True: pass", none, some 2⟩ (by decide)).1,
   (C7_timeout_reporting 2 "o" "e" "tb" "o2" "" (.ceilingExpired "o" "e")
      ⟨"while True: pass", none, some 2⟩ (by decide)).2.2.1⟩

/-- C8, counterexample.  The claim requires the diagnostics to equal the
combined compile output of the toolchain.  The C# runner discards the
build stdout and reports a prefixed copy of the build stderr only: on a
failed build with stdout `warnW` and stderr `errE` the diagnostics are
not the combined `warnWerrE`. -/
theorem C8_diagnostics_counterexample :
    (CSharpRunner.execute_csharp_code (.ran 1 "warnW" "errE") .hangsAlone 25).1.stderr =
      "Compilation error:\nerrE" ∧
    (CSharpRunner.execute_csharp_code (.ran 1 "warnW" "errE") .hangsAlone 25).1.stderr ≠
      "warnW" ++ "errE" ∧
    (CSharpRunner.execute_csharp_code (.ran 1 "warnW" "errE") .hangsAlone 25).1.stdout = "" ∧
    (CSharpRunner.execute_csharp_code (.ran 1 "warnW" "errE") .hangsAlone 25).2 = none := by
  refine ⟨rfl, by decide, rfl, rfl⟩

/-- C8, amended.  A non-zero compile exit halts the pipeline before the
execute phase in the C#/Go runners — the result is independent of any
run behavior, with `none` for the run-phase residue, captured stdout is
empty, and the diagnostics are only the prefixed build stderr, not the
combined output.  The deployed java judge returns no compile-failure
response at all: building any response evaluates `time.time()` with the
`time` module unbound, so every invocation, whatever its compile and
run outcomes, ends in an unhandled `NameError`; its in-source
compile-failure path, which would report the combined stdout+stderr and
skip the execute phase, is reachable only in the script context. -/
theorem C8_compile_failure_halts (rc : Int) (out err : String)
    (b : CSharpRunner.ChildRun) (ts : Int) (e : JavaJudge.JEvent)
    (mcf : Bool) (c : JavaJudge.CompileRun) (r : JavaJudge.JRun) (h : rc ≠ 0)
    (hs : (pyStrip e.source_code.toList).isEmpty = false) :
    CSharpRunner.execute_csharp_code (.ran rc out err) b ts =
      (⟨false, "", "Compilation error:\n" ++ err, false⟩, none) ∧
    JavaJudge.java_lambda_handler false e mcf c r = .error JavaJudge.nameErrorTime ∧
    JavaJudge.java_lambda_handler true e true (.ran rc out err) r =
      .ok (.compileFailure "Compilation failed" (out ++ err)) := by
  refine ⟨?_, ?_, ?_⟩
  · simp [CSharpRunner.execute_csharp_code, bne_iff_ne, h]
  · unfold JavaJudge.java_lambda_handler
    rw [java_handler_body_deployed]
    rfl
  · have hs2 : pyStrip e.source_code.data ≠ [] := by
      intro hc
      have hs3 : (pyStrip e.source_code.toList).isEmpty = true := by
        show (pyStrip e.source_code.data).isEmpty = true
        rw [hc]
        rfl
      rw [hs3] at hs
      cases hs
    simp [JavaJudge.java_lambda_handler, JavaJudge.java_handler_body, hs, hs2,
      JavaJudge.compile_java, JavaJudge.create_response, beq_iff_eq, h]

/-- C8, witness for the amended theorem at concrete inputs. -/
theorem C8_compile_failure_halts_witness :
    (1 : Int) ≠ 0 ∧
    (pyStrip ("class A".toList)).isEmpty = false ∧
    CSharpRunner.execute_csharp_code (.ran 1 "w" "e") .hangsAlone 25 =
      (⟨false, "", "Compilation error:\ne", false⟩, none) ∧
    JavaJudge.java_lambda_handler false ⟨"class A", "", some 10, some 128⟩ true
        (.ran 1 "w" "e") (.completed 0 "" "") = .error JavaJudge.nameErrorTime :=
  ⟨by decide, by decide,
   (C8_compile_failure_halts 1 "w" "e" .hangsAlone 25
      ⟨"class A", "", some 10, some 128⟩ true (.ran 1 "w" "e") (.completed 0 "" "")
      (by decide) (by decide)).1,
   (C8_compile_failure_halts 1 "w" "e" .hangsAlone 25
      ⟨"class A", "", some 10, some 128⟩ true (.ran 1 "w" "e") (.completed 0 "" "")
      (by decide) (by decide)).2.1⟩

/-- C9.  A submission that already carries its own complete runnable
entrypoint is passed through unmodified by the adapter: a C# source
containing either Main marker is returned unchanged, a Go source
containing both a main function and the package clause is returned
unchanged, and wrapping is therefore idempotent on such sources. -/
theorem C9_passthrough :
    (∀ code : String, hasSubstr code "static void Main" = true →
        CSharpRunner.prepare_csharp code = code) ∧
    (∀ code : String, hasSubstr code "static async Task Main" = true →
        CSharpRunner.prepare_csharp code = code) ∧
    (∀ code : String, hasSubstr code "func main()" = true →
        hasSubstr code "package main" = true →
        GoRunner.prepare_go code = code) ∧
    (∀ code : String, hasSubstr code "static void Main" = true →
        CSharpRunner.prepare_csharp (CSharpRunner.prepare_csharp code) =
          CSharpRunner.prepare_csharp code) := by
  have h1 : ∀ code : String, hasSubstr code "static void Main" = true →
      CSharpRunner.prepare_csharp code = code := by
    intro code h
    unfold CSharpRunner.prepare_csharp
    rw [h]
    rfl
  have h3 : ∀ code : String, hasSubstr code "func main()" = true →
      hasSubstr code "package main" = true → GoRunner.prepare_go code = code := by
    intro code hm hp
    unfold GoRunner.prepare_go
    rw [hm, hp]
    rfl
  refine ⟨h1, ?_, h3, ?_⟩
  · intro code h
    unfold CSharpRunner.prepare_csharp
    rw [h]
    simp
  · intro code h
    rw [h1 code h, h1 code h]

/-- C9, witness at concrete already-runnable sources. -/
theorem C9_passthrough_witness :
    hasSubstr "class Program\n    static void Main(string[] args)\n    Go();"
      "static void Main" = true ∧
    CSharpRunner.prepare_csharp
        "class Program\n    static void Main(string[] args)\n    Go();" =
      "class Program\n    static void Main(string[] args)\n    Go();" ∧
    hasSubstr "package main\n\nfunc main() \x7b \x7d" "func main()" = true ∧
    GoRunner.prepare_go "package main\n\nfunc main() \x7b \x7d" =
      "package main\n\nfunc main() \x7b \x7d" :=
  ⟨by decide,
   C9_passthrough.1 "class Program\n    static void Main(string[] args)\n    Go();"
     (by decide),
   by decide,
   C9_passthrough.2.2.1 "package main\n\nfunc main() \x7b \x7d" (by decide) (by decide)⟩

/-- C10.  In the python judge, any exception raised inside the exec call
— the timeout interrupt included, since `TimeoutError` derives from
`Exception` and is caught by the inner handler — produces a 200 response
whose body reports success true; failure is signalled only by exit code
1 and the stderr text, and the dedicated 408 timed-out error response is
never produced for an in-evaluation exception. -/
theorem C10_exec_exception_response (e : PyJudge.Event)
    (excName excMsg tb out err : String)
    (h : PyJudge.inputValidation e.code = none) :
    ((PyJudge.lambda_handler e (.raisesExc excName excMsg tb out err)).statusCode = 200 ∧
     (PyJudge.lambda_handler e (.raisesExc excName excMsg tb out err)).success = true ∧
     (PyJudge.lambda_handler e (.raisesExc excName excMsg tb out err)).exitCode = 1 ∧
     PyJudge.lambda_handler e (.raisesExc excName excMsg tb out err) ≠
       PyJudge.timed_out_response) ∧
    ((PyJudge.lambda_handler e (.ceilingExpires tb out err)).statusCode = 200 ∧
     (PyJudge.lambda_handler e (.ceilingExpires tb out err)).success = true ∧
     (PyJudge.lambda_handler e (.ceilingExpires tb out err)).exitCode = 1 ∧
     (PyJudge.lambda_handler e (.ceilingExpires tb out err)).stdout = out ∧
     PyJudge.lambda_handler e (.ceilingExpires tb out err) ≠
       PyJudge.timed_out_response) := by
  have hne : ∀ b : PyJudge.ExecBeh,
      (PyJudge.lambda_handler e b).statusCode = 200 →
      PyJudge.lambda_handler e b ≠ PyJudge.timed_out_response := by
    intro b hst heq
    rw [heq] at hst
    exact absurd hst (by decide)
  refine ⟨⟨?_, ?_, ?_, ?_⟩, ⟨?_, ?_, ?_, ?_, ?_⟩⟩ <;>
    first
      | (apply hne
         simp [PyJudge.lambda_handler, h, PyJudge.execute_python_code])
      | simp [PyJudge.lambda_handler, h, PyJudge.execute_python_code]

/-- C10, witness at a concrete request whose evaluation raises. -/
theorem C10_exec_exception_response_witness :
    PyJudge.inputValidation "x = 1/0" = none ∧
    (PyJudge.lambda_handler ⟨"x = 1/0", none, some 5⟩
        (.raisesExc "ZeroDivisionError" "division by zero" "tb" "" "")).statusCode = 200 ∧
    (PyJudge.lambda_handler ⟨"x = 1/0", none, some 5⟩
        (.raisesExc "ZeroDivisionError" "division by zero" "tb" "" "")).success = true ∧
    (PyJudge.lambda_handler ⟨"x = 1/0", none, some 5⟩
        (.raisesExc "ZeroDivisionError" "division by zero" "tb" "" "")).exitCode = 1 :=
  ⟨by decide,
   ((C10_exec_exception_response ⟨"x = 1/0", none, some 5⟩
      "ZeroDivisionError" "division by zero" "tb" "" "" (by decide)).1).1,
   ((C10_exec_exception_response ⟨"x = 1/0", none, some 5⟩
      "ZeroDivisionError" "division by zero" "tb" "" "" (by decide)).1).2.1,
   ((C10_exec_exception_response ⟨"x = 1/0", none, some 5⟩
      "ZeroDivisionError" "division by zero" "tb" "" "" (by decide)).1).2.2.1⟩
